import Mathlib

/-!
Shallow embedding of the Stripe webhook handler in
apps/web/src/pages/api/stripe/webhook/index.ts.

The handler checks the stripe-signature header, verifies the raw body with
the Stripe SDK, and dispatches on the event type: subscription updates are
reconciled into the Subscription table, and landing-page checkout
completions provision a completed document (DocumentData, Document,
Recipient, Field, Signature records plus a PDF content mutation).

Database tables are lists of row records; prisma create/update calls become
list operations; thrown errors become an Except error result; the order of
table touches is recorded in an operation trace.  JavaScript truthiness on
strings (empty string is falsy) is made explicit at each use site.
-/

namespace DocumensoWebhook

/-- Prisma SubscriptionStatus enum. -/
inductive SubscriptionStatus
  | ACTIVE
  | PAST_DUE
  | INACTIVE
deriving DecidableEq, Repr

/-- Prisma DocumentStatus enum (values used by this flow plus the others). -/
inductive DocumentStatus
  | DRAFT
  | PENDING
  | COMPLETED
deriving DecidableEq, Repr

/-- Prisma DocumentDataType enum. -/
inductive DocumentDataType
  | S3_PATH
  | BYTES
  | BYTES_64
deriving DecidableEq, Repr

/-- Prisma ReadStatus enum. -/
inductive ReadStatus
  | NOT_OPENED
  | OPENED
deriving DecidableEq, Repr

/-- Prisma SendStatus enum. -/
inductive SendStatus
  | NOT_SENT
  | SENT
deriving DecidableEq, Repr

/-- Prisma SigningStatus enum. -/
inductive SigningStatus
  | NOT_SIGNED
  | SIGNED
deriving DecidableEq, Repr

/-- Prisma FieldType enum (the flow only creates SIGNATURE fields). -/
inductive FieldType
  | SIGNATURE
  | FREE_SIGNATURE
  | TEXT
deriving DecidableEq, Repr

/-- A row of the User table.  The name column is nullable
(the source guards it with a null coalescing fallback). -/
structure UserRow where
  id : Int
  name : Option String
  email : String
deriving DecidableEq, Repr

/-- A row of the Subscription table.  Timestamps are epoch milliseconds. -/
structure SubscriptionRow where
  customerId : String
  planId : String
  status : SubscriptionStatus
  cancelAtPeriodEnd : Bool
  periodEnd : Int
  updatedAt : Int
deriving DecidableEq, Repr

/-- A row of the DocumentData table. -/
structure DocumentDataRow where
  id : Nat
  type : DocumentDataType
  data : String
  initialData : String
deriving DecidableEq, Repr

/-- A row of the Document table. -/
structure DocumentRow where
  id : Nat
  title : String
  status : DocumentStatus
  userId : Int
  documentDataId : Nat
deriving DecidableEq, Repr

/-- A row of the Recipient table. -/
structure RecipientRow where
  id : Nat
  name : String
  email : String
  token : String
  signedAt : Int
  readStatus : ReadStatus
  sendStatus : SendStatus
  signingStatus : SigningStatus
  documentId : Nat
deriving DecidableEq, Repr

/-- A row of the Field table.  The decimal position columns only ever hold
the integer literals 77 and 638 in this flow, so they are carried as Int. -/
structure FieldRow where
  id : Nat
  documentId : Nat
  recipientId : Nat
  type : FieldType
  page : Nat
  positionX : Int
  positionY : Int
  inserted : Bool
  customText : String
deriving DecidableEq, Repr

/-- A row of the Signature table.  Both artifact columns are nullable. -/
structure SignatureRow where
  id : Nat
  fieldId : Nat
  recipientId : Nat
  signatureImageAsBase64 : Option String
  typedSignature : Option String
deriving DecidableEq, Repr

/-- The database state: one list per table touched by the handler, plus a
fresh-id counter used by created rows. -/
structure Db where
  users : List UserRow
  subscriptions : List SubscriptionRow
  documents : List DocumentRow
  documentDatas : List DocumentDataRow
  recipients : List RecipientRow
  fields : List FieldRow
  signatures : List SignatureRow
  nextId : Nat
deriving DecidableEq, Repr

/-- Stripe customer reference: a plain id string or an expanded object
carrying the id. -/
inductive StripeCustomerRef
  | str (id : String)
  | obj (id : String)
deriving DecidableEq, Repr

/-- The plan object the handler destructures off the subscription item. -/
structure StripePlan where
  id : String
deriving DecidableEq, Repr

/-- The fields of a Stripe subscription event object that the handler
reads. -/
structure StripeSubscription where
  customer : StripeCustomerRef
  status : String
  cancel_at_period_end : Bool
  current_period_end : Int
  plan : StripePlan
deriving DecidableEq, Repr

/-- The optional metadata keys of a checkout session that the handler
reads. -/
structure SessionMetadata where
  source : Option String
  signatureText : Option String
  signatureDataUrl : Option String
deriving DecidableEq, Repr

/-- The fields of a Stripe checkout session object that the handler
reads. -/
structure CheckoutSession where
  client_reference_id : Option String
  metadata : Option SessionMetadata
deriving DecidableEq, Repr

/-- A verified Stripe event, already classified by its type string; the
payload casts in the source are reflected as constructor payloads. -/
inductive StripeEvent
  | customerSubscriptionUpdated (subscription : StripeSubscription)
  | checkoutSessionCompleted (session : CheckoutSession)
  | unhandled (type : String)
deriving DecidableEq, Repr

/-- An HTTP response produced by res.status(...).json with a success flag
and a message. -/
structure ApiResponse where
  status : Nat
  success : Bool
  message : String
deriving DecidableEq, Repr

/-- Errors thrown by the handler and not caught locally. -/
inductive HandlerError
  | signatureVerificationFailed
  | documentHasNoDocumentData (documentId : Nat)
  | recordNotFound
deriving DecidableEq, Repr

/-- Which table a database or cache operation touched, used to state
frame conditions (no record read or written). -/
inductive DbOp
  | userRead
  | redisRead
  | documentDataCreate
  | documentCreate
  | recipientCreate
  | fieldCreate
  | signatureCreate
  | documentUpdate
  | subscriptionUpdate
deriving DecidableEq, Repr

/-- The outcome of one handler invocation: the response or the uncaught
error, the final database, and the trace of record operations. -/
structure HandlerOut where
  result : Except HandlerError ApiResponse
  db : Db
  ops : List DbOp
deriving Repr

/-- Request-scoped environment: the redis cache contents, the template PDF
bytes in base64, the random token and the current time of this request. -/
structure Env where
  redis : String → Option String
  templateBytes64 : String
  token : String
  now : Int

/-- The header normalization at the top of the handler: a non-string or
missing stripe-signature header becomes the empty string. -/
def headerSig (h : Option String) : String :=
  h.getD ""

/-- Decimal digit accumulator for the Number conversion model. -/
def parseDigitsAux : List Char → Nat → Option Nat
  | [], acc => some acc
  | c :: cs, acc =>
    if c.isDigit then parseDigitsAux cs (acc * 10 + (c.toNat - 48)) else none

/-- JavaScript Number conversion applied to the nullable
client_reference_id: null and the empty string convert to 0, a string of
decimal digits (optionally sign-prefixed) to its value, anything else to
NaN (represented as none, which compares unequal to every id). -/
def jsNumberOfRef : Option String → Option Int
  | none => some 0
  | some s =>
    if s = "" then some 0
    else
      match s.data with
      | '-' :: c :: cs => (parseDigitsAux (c :: cs) 0).map (fun n => -(n : Int))
      | cs => (parseDigitsAux cs 0).map (fun n => (n : Int))

/-- The user lookup predicate of prisma.user.findFirst with
where id = Number(session.client_reference_id). -/
def clientRefMatches (ref : Option String) (uid : Int) : Bool :=
  match jsNumberOfRef ref with
  | none => false
  | some n => n == uid

/-- JavaScript logical-or on a possibly undefined string with a nullable
string fallback, as in session.metadata?.signatureText || user.name: an
absent or empty left operand yields the right operand. -/
def jsOrStr (a : Option String) (b : Option String) : Option String :=
  match a with
  | none => b
  | some s => if s = "" then b else some s

/-- Resolution of the optional signature image: when the metadata carries a
truthy signatureDataUrl reference, the cache is consulted and a truthy
result is kept; every other path leaves the empty string. -/
def resolveSignatureDataUrl (redis : String → Option String)
    (metadata : Option SessionMetadata) : String :=
  match metadata with
  | none => ""
  | some m =>
    match m.signatureDataUrl with
    | none => ""
    | some ref =>
      if ref = "" then ""
      else
        match redis ("signature:" ++ ref) with
        | none => ""
        | some r => if r = "" then "" else r

/-- The cache operations performed while resolving the signature image:
one read exactly when the metadata reference is truthy. -/
def redisOps (metadata : Option SessionMetadata) : List DbOp :=
  match metadata with
  | none => []
  | some m =>
    match m.signatureDataUrl with
    | none => []
    | some ref => if ref = "" then [] else [DbOp.redisRead]

/-- The textual record of an image drawn at a position and page, used by
the modelled image-insertion primitive. -/
def imageMark (image : String) (x y : Int) (page : Nat) : String :=
  "<image-mark " ++ image ++ " at " ++ toString x ++ " "
    ++ toString y ++ " page " ++ toString page ++ ">"

/-- The textual record of typed text drawn at a position and page, used by
the modelled text-insertion primitive. -/
def textMark (text : String) (x y : Int) (page : Nat) : String :=
  "<text-mark " ++ text ++ " at " ++ toString x ++ " "
    ++ toString y ++ " page " ++ toString page ++ ">"

/-- Modelled from the spec: the PDF image-insertion primitive lives in
a package of this repository that is not under src
(insert-image-in-pdf); per the spec it draws the image at the given
position and page and produces new binary content, modelled as the input
content extended with a record of the drawn mark. -/
def insertImageInPDF (pdf : String) (image : String) (x y : Int)
    (page : Nat) : String :=
  pdf ++ imageMark image x y page

/-- Modelled from the spec: the PDF text-insertion primitive lives in
a package of this repository that is not under src
(insert-text-in-pdf); per the spec it draws the typed text at the given
position and page and produces new binary content, modelled as the input
content extended with a record of the drawn mark. -/
def insertTextInPDF (pdf : String) (text : String) (x y : Int)
    (page : Nat) : String :=
  pdf ++ textMark text x y page

/-- The status vocabulary mapping of handleCustomerSubscriptionUpdated:
a ts-pattern match with arms for active and past_due and an otherwise
fallback. -/
def mapSubscriptionStatus (status : String) : SubscriptionStatus :=
  if status = "active" then SubscriptionStatus.ACTIVE
  else if status = "past_due" then SubscriptionStatus.PAST_DUE
  else SubscriptionStatus.INACTIVE

/-- Customer id normalization: a string customer is used as is, an
expanded customer object contributes its id. -/
def normalizeCustomer : StripeCustomerRef → String
  | StripeCustomerRef.str id => id
  | StripeCustomerRef.obj id => id

/-- The field assignments of the prisma.subscription.update data clause,
applied to one row. -/
def applySubUpdate (now : Int) (subscription : StripeSubscription)
    (row : SubscriptionRow) : SubscriptionRow :=
  { row with
    planId := subscription.plan.id
    status := mapSubscriptionStatus subscription.status
    cancelAtPeriodEnd := subscription.cancel_at_period_end
    periodEnd := subscription.current_period_end * 1000
    updatedAt := now }

/-- One row of the prisma.subscription.update pass: a row matching the
unique customerId key receives the update, any other row is untouched. -/
def updStep (now : Int) (subscription : StripeSubscription) (cid : String)
    (r : SubscriptionRow) : SubscriptionRow :=
  if r.customerId == cid then applySubUpdate now subscription r else r

/-- prisma.subscription.update on the unique customerId key: every row
matching the key receives the update. -/
def updateMatching (now : Int) (subscription : StripeSubscription)
    (cid : String) (l : List SubscriptionRow) : List SubscriptionRow :=
  l.map (updStep now subscription cid)

/-- handleCustomerSubscriptionUpdated: normalize the customer id, map the
status, and update the unique matching subscription row; prisma update
throws a not-found error when no row matches the unique key. -/
def handleCustomerSubscriptionUpdated (now : Int)
    (subscription : StripeSubscription) (db : Db) : Except HandlerError Db :=
  let customerId := normalizeCustomer subscription.customer
  if db.subscriptions.any (fun r => r.customerId == customerId) then
    Except.ok { db with
      subscriptions := updateMatching now subscription customerId
        db.subscriptions }
  else Except.error HandlerError.recordNotFound

/-- The body of the metadata source landing branch of the
checkout.session.completed event: resolve the user, compute the typed text
and the optional cached image, create DocumentData, Document, Recipient and
Field rows, insert the mark into the PDF content, then create the Signature
row and write the mutated content back. -/
def provisionLanding (env : Env) (session : CheckoutSession)
    (db : Db) : HandlerOut :=
  match db.users.find? (fun u =>
      clientRefMatches session.client_reference_id u.id) with
  | none =>
    { result := Except.ok ⟨500, false, "User not found"⟩
      db := db
      ops := [DbOp.userRead] }
  | some user =>
    let signatureText : Option String :=
      jsOrStr (session.metadata.bind SessionMetadata.signatureText) user.name
    let signatureDataUrl : String :=
      resolveSignatureDataUrl env.redis session.metadata
    let bytes64 := env.templateBytes64
    let documentDataId := db.nextId
    let dd : DocumentDataRow :=
      ⟨documentDataId, DocumentDataType.BYTES_64, bytes64, bytes64⟩
    let db1 : Db := { db with
      documentDatas := db.documentDatas ++ [dd]
      nextId := db.nextId + 1 }
    let documentId := db1.nextId
    let document : DocumentRow :=
      ⟨documentId, "Documenso Supporter Pledge.pdf", DocumentStatus.COMPLETED,
        user.id, documentDataId⟩
    let db2 : Db := { db1 with
      documents := db1.documents ++ [document]
      nextId := db1.nextId + 1 }
    match db2.documentDatas.find? (fun r => r.id == documentDataId) with
    | none =>
      { result := Except.error
          (HandlerError.documentHasNoDocumentData documentId)
        db := db2
        ops := [DbOp.userRead] ++ redisOps session.metadata
          ++ [DbOp.documentDataCreate, DbOp.documentCreate] }
    | some documentData =>
      let recipientId := db2.nextId
      let recipient : RecipientRow :=
        ⟨recipientId, user.name.getD "", user.email, env.token, env.now,
          ReadStatus.OPENED, SendStatus.SENT, SigningStatus.SIGNED,
          documentId⟩
      let db3 : Db := { db2 with
        recipients := db2.recipients ++ [recipient]
        nextId := db2.nextId + 1 }
      let fieldId := db3.nextId
      let field : FieldRow :=
        ⟨fieldId, documentId, recipientId, FieldType.SIGNATURE, 0, 77, 638,
          false, ""⟩
      let db4 : Db := { db3 with
        fields := db3.fields ++ [field]
        nextId := db3.nextId + 1 }
      let newData : String :=
        if signatureDataUrl = "" then
          insertTextInPDF documentData.data (signatureText.getD "")
            field.positionX field.positionY field.page
        else
          insertImageInPDF documentData.data signatureDataUrl
            field.positionX field.positionY field.page
      let signatureId := db4.nextId
      let sigRow : SignatureRow :=
        ⟨signatureId, fieldId, recipientId,
          (if signatureDataUrl = "" then none else some signatureDataUrl),
          (if signatureDataUrl = "" then signatureText else some "")⟩
      let db5 : Db := { db4 with
        signatures := db4.signatures ++ [sigRow]
        nextId := db4.nextId + 1 }
      let db6 : Db := { db5 with
        documentDatas := db5.documentDatas.map (fun r =>
          if r.id == document.documentDataId then { r with data := newData }
          else r) }
      { result := Except.ok ⟨200, true, "Webhook received"⟩
        db := db6
        ops := [DbOp.userRead] ++ redisOps session.metadata
          ++ [DbOp.documentDataCreate, DbOp.documentCreate,
              DbOp.recipientCreate, DbOp.fieldCreate, DbOp.signatureCreate,
              DbOp.documentUpdate] }

/-- The webhook handler.  The stripe-signature header is normalized; an
empty header answers 400 immediately.  The Stripe SDK signature
verification is an external primitive and enters the model as its result:
ok with the typed event, or error when the signature is invalid (the
source does not catch this throw).  Verified events dispatch on their type
string. -/
def handler (env : Env) (sigHeader : Option String)
    (constructEvent : Except Unit StripeEvent) (db : Db) : HandlerOut :=
  let sig := headerSig sigHeader
  if sig = "" then
    { result := Except.ok ⟨400, false, "No signature found in request"⟩
      db := db
      ops := [] }
  else
    match constructEvent with
    | Except.error _ =>
      { result := Except.error HandlerError.signatureVerificationFailed
        db := db
        ops := [] }
    | Except.ok event =>
      match event with
      | StripeEvent.customerSubscriptionUpdated subscription =>
        match handleCustomerSubscriptionUpdated env.now subscription db with
        | Except.error e =>
          { result := Except.error e
            db := db
            ops := [DbOp.subscriptionUpdate] }
        | Except.ok db1 =>
          { result := Except.ok ⟨200, true, "Webhook received"⟩
            db := db1
            ops := [DbOp.subscriptionUpdate] }
      | StripeEvent.checkoutSessionCompleted session =>
        if session.metadata.bind SessionMetadata.source = some "landing" then
          provisionLanding env session db
        else
          { result := Except.ok ⟨200, true, "Webhook received"⟩
            db := db
            ops := [] }
      | StripeEvent.unhandled _ =>
        { result := Except.ok ⟨400, false, "Unhandled webhook event"⟩
          db := db
          ops := [] }

/-- An artifact column counts as populated when it is present and
non-empty (the source writes undefined for an absent image and the empty
string for the suppressed typed text). -/
def populated : Option String → Bool
  | none => false
  | some s => !(s == "")

/-- The freshness invariant the id counter maintains: every DocumentData
row id is below the counter, so a newly allocated id collides with no
existing row. -/
def Db.FreshIds (db : Db) : Prop :=
  ∀ r ∈ db.documentDatas, r.id < db.nextId

/-- The subscription row fields the idempotence claim compares: everything
except the updatedAt timestamp. -/
def subObservable (r : SubscriptionRow) :
    String × String × SubscriptionStatus × Bool × Int :=
  (r.customerId, r.planId, r.status, r.cancelAtPeriodEnd, r.periodEnd)

/-- The typed signer text of a landing provisioning run: the metadata
signatureText override with the user name as fallback. -/
def landingSignatureText (session : CheckoutSession) (user : UserRow) :
    Option String :=
  jsOrStr (session.metadata.bind SessionMetadata.signatureText) user.name

/-- The document content after the mark insertion of a landing
provisioning run: the template content with the image drawn when the cache
resolved a signature image, otherwise with the typed text drawn. -/
def landingNewData (env : Env) (session : CheckoutSession)
    (user : UserRow) : String :=
  if resolveSignatureDataUrl env.redis session.metadata = "" then
    insertTextInPDF env.templateBytes64
      ((landingSignatureText session user).getD "") 77 638 0
  else
    insertImageInPDF env.templateBytes64
      (resolveSignatureDataUrl env.redis session.metadata) 77 638 0

/-- The Signature row a landing provisioning run creates. -/
def landingSignatureRow (env : Env) (session : CheckoutSession) (db : Db)
    (user : UserRow) : SignatureRow :=
  ⟨db.nextId + 4, db.nextId + 3, db.nextId + 2,
    (if resolveSignatureDataUrl env.redis session.metadata = "" then none
      else some (resolveSignatureDataUrl env.redis session.metadata)),
    (if resolveSignatureDataUrl env.redis session.metadata = "" then
      landingSignatureText session user
      else some "")⟩

/-- The DocumentData row of a landing provisioning run as it stands once
the run has completed: the data column holds the mutated content, the
initialData column still holds the pristine template content. -/
def landingDocumentData (env : Env) (session : CheckoutSession) (db : Db)
    (user : UserRow) : DocumentDataRow :=
  ⟨db.nextId, DocumentDataType.BYTES_64, landingNewData env session user,
    env.templateBytes64⟩

/-- The Field row a landing provisioning run creates. -/
def landingField (db : Db) : FieldRow :=
  ⟨db.nextId + 3, db.nextId + 1, db.nextId + 2, FieldType.SIGNATURE, 0, 77,
    638, false, ""⟩

/-- The full database state after a successful landing provisioning run. -/
def landingFinalDb (env : Env) (session : CheckoutSession) (db : Db)
    (user : UserRow) : Db :=
  { users := db.users
    subscriptions := db.subscriptions
    documents := db.documents ++
      [⟨db.nextId + 1, "Documenso Supporter Pledge.pdf",
        DocumentStatus.COMPLETED, user.id, db.nextId⟩]
    documentDatas := db.documentDatas ++
      [landingDocumentData env session db user]
    recipients := db.recipients ++
      [⟨db.nextId + 2, user.name.getD "", user.email, env.token, env.now,
        ReadStatus.OPENED, SendStatus.SENT, SigningStatus.SIGNED,
        db.nextId + 1⟩]
    fields := db.fields ++ [landingField db]
    signatures := db.signatures ++ [landingSignatureRow env session db user]
    nextId := db.nextId + 5 }

/-- The operation trace of a successful landing provisioning run. -/
def landingOps (metadata : Option SessionMetadata) : List DbOp :=
  [DbOp.userRead] ++ redisOps metadata
    ++ [DbOp.documentDataCreate, DbOp.documentCreate, DbOp.recipientCreate,
        DbOp.fieldCreate, DbOp.signatureCreate, DbOp.documentUpdate]

/-- Sample environment with an empty signature cache. -/
def envEmptyCache : Env :=
  ⟨fun _ => none, "JVBERi10ZW1wbGF0ZQ==", "a1b2c3d4", 1700000000000⟩

/-- Sample environment whose cache resolves one signature reference. -/
def envWithImage : Env :=
  ⟨fun k => if k = "signature:ref1" then some "data:image/png;base64,AAAA"
    else none,
   "JVBERi10ZW1wbGF0ZQ==", "a1b2c3d4", 1700000000000⟩

/-- Empty database. -/
def dbEmpty : Db := ⟨[], [], [], [], [], [], [], 0⟩

/-- Sample user with a name. -/
def userAlice : UserRow := ⟨1, some "Alice Doe", "alice@example.com"⟩

/-- Sample user whose name column is null. -/
def userNoName : UserRow := ⟨1, none, "noname@example.com"⟩

/-- Sample user whose name column is the empty string. -/
def userEmptyName : UserRow := ⟨2, some "", "empty@example.com"⟩

/-- Database holding just the sample named user. -/
def dbAlice : Db := ⟨[userAlice], [], [], [], [], [], [], 0⟩

/-- Database holding just the null-name user. -/
def dbNoName : Db := ⟨[userNoName], [], [], [], [], [], [], 0⟩

/-- Database holding just the empty-name user. -/
def dbEmptyName : Db := ⟨[userEmptyName], [], [], [], [], [], [], 0⟩

/-- Landing checkout session with no metadata beyond the source tag. -/
def sessLandingBare : CheckoutSession :=
  ⟨some "1", some ⟨some "landing", none, none⟩⟩

/-- Landing checkout session for the empty-name user. -/
def sessLandingUser2 : CheckoutSession :=
  ⟨some "2", some ⟨some "landing", none, none⟩⟩

/-- Landing checkout session carrying a signature image reference. -/
def sessLandingImg : CheckoutSession :=
  ⟨some "1", some ⟨some "landing", none, some "ref1"⟩⟩

/-- Checkout session whose metadata source is not the landing tag. -/
def sessOther : CheckoutSession :=
  ⟨some "1", some ⟨some "app", none, none⟩⟩

/-- Sample subscription-update event object with an unrecognized status. -/
def subCanceled : StripeSubscription :=
  ⟨StripeCustomerRef.str "cus_1", "canceled", false, 1700001000, ⟨"plan_9"⟩⟩

/-- Sample subscription-update event object with the past_due status. -/
def subPastDue : StripeSubscription :=
  ⟨StripeCustomerRef.str "cus_1", "past_due", true, 1700002000, ⟨"plan_9"⟩⟩

/-- Sample subscription-update event object for an unknown customer. -/
def subUnknownCustomer : StripeSubscription :=
  ⟨StripeCustomerRef.obj "cus_missing", "active", false, 1700003000,
    ⟨"plan_9"⟩⟩

/-- Sample stored subscription row. -/
def rowCus1 : SubscriptionRow :=
  ⟨"cus_1", "plan_0", SubscriptionStatus.ACTIVE, false, 1600000000000, 5⟩

/-- Database holding just the sample subscription row. -/
def dbSub : Db := ⟨[], [rowCus1], [], [], [], [], [], 0⟩

/-- The sample subscription database after one application of the
past_due update event at time 11. -/
def dbSubOnce : Db :=
  ⟨[], [⟨"cus_1", "plan_9", SubscriptionStatus.PAST_DUE, true,
    1700002000000, 11⟩], [], [], [], [], [], 0⟩

/-- Finding in a list extended on the right with one element that
satisfies the predicate, when nothing before it does, yields that
element. -/
theorem find_append_singleton {α : Type} (p : α → Bool) (l : List α)
    (x : α) (h : ∀ y ∈ l, p y = false) (hx : p x = true) :
    (l ++ [x]).find? p = some x := by
  induction l with
  | nil => simp [List.find?, hx]
  | cons a t ih =>
    have ha : p a = false := h a (by simp)
    rw [List.cons_append, List.find?_cons_of_neg _ (by simp [ha])]
    exact ih (fun y hy => h y (by simp [hy]))

/-- Mapping a guarded update over a list extended on the right with one
element, when only that element satisfies the guard, rewrites only that
element. -/
theorem map_update_append_singleton {α : Type} (g : α → α) (p : α → Bool)
    (l : List α) (x : α) (h : ∀ y ∈ l, p y = false) (hx : p x = true) :
    (l ++ [x]).map (fun y => if p y then g y else y) = l ++ [g x] := by
  induction l with
  | nil => simp [hx]
  | cons a t ih =>
    have ha : p a = false := h a (by simp)
    simp only [List.cons_append, List.map_cons, ha, Bool.false_eq_true,
      if_false, List.cons.injEq, true_and]
    exact ih (fun y hy => h y (by simp [hy]))

/-- Appending a non-empty string strictly changes a string. -/
theorem append_ne_of_ne_empty (s t : String) (h : t ≠ "") : s ++ t ≠ s := by
  intro he
  apply h
  have hd := congrArg String.data he
  rw [String.data_append] at hd
  have hnil : t.data = [] := List.append_cancel_left
    (by simpa using hd : s.data ++ t.data = s.data ++ [])
  cases t with
  | mk d => simp at hnil; simp [hnil]

/-- The image mark is never the empty string. -/
theorem imageMark_ne_empty (image : String) (x y : Int) (page : Nat) :
    imageMark image x y page ≠ "" := by
  intro h
  have hd := congrArg String.data h
  simp [imageMark, String.data_append] at hd

/-- The text mark is never the empty string. -/
theorem textMark_ne_empty (text : String) (x y : Int) (page : Nat) :
    textMark text x y page ≠ "" := by
  intro h
  have hd := congrArg String.data h
  simp [textMark, String.data_append] at hd

/-- The modelled image insertion changes the content. -/
theorem insertImageInPDF_ne (pdf image : String) (x y : Int) (page : Nat) :
    insertImageInPDF pdf image x y page ≠ pdf :=
  append_ne_of_ne_empty pdf (imageMark image x y page)
    (imageMark_ne_empty image x y page)

/-- The modelled text insertion changes the content. -/
theorem insertTextInPDF_ne (pdf text : String) (x y : Int) (page : Nat) :
    insertTextInPDF pdf text x y page ≠ pdf :=
  append_ne_of_ne_empty pdf (textMark text x y page)
    (textMark_ne_empty text x y page)

/-- The mutated landing content always differs from the template
content, on the image path and on the text path alike. -/
theorem landingNewData_ne_template (env : Env) (session : CheckoutSession)
    (user : UserRow) :
    landingNewData env session user ≠ env.templateBytes64 := by
  unfold landingNewData
  by_cases h : resolveSignatureDataUrl env.redis session.metadata = ""
  · rw [if_pos h]; exact insertTextInPDF_ne _ _ _ _ _
  · rw [if_neg h]; exact insertImageInPDF_ne _ _ _ _ _

/-- Finding the freshly appended DocumentData row by its id succeeds when
all earlier rows have smaller ids. -/
theorem find_dd_append (l : List DocumentDataRow) (n : Nat)
    (t : DocumentDataType) (d i : String) (h : ∀ y ∈ l, y.id < n) :
    (l ++ [(⟨n, t, d, i⟩ : DocumentDataRow)]).find? (fun r => r.id == n) =
      some ⟨n, t, d, i⟩ :=
  find_append_singleton _ l _
    (fun y hy => by simp [Nat.ne_of_lt (h y hy)])
    (by simp)

/-- The content write-back touches only the freshly appended DocumentData
row, and only its data column, when all earlier rows have smaller ids. -/
theorem map_dd_append (l : List DocumentDataRow) (n : Nat)
    (t : DocumentDataType) (d i nd : String) (h : ∀ y ∈ l, y.id < n) :
    (l ++ [(⟨n, t, d, i⟩ : DocumentDataRow)]).map
      (fun r => if r.id == n then { r with data := nd } else r) =
      l ++ [⟨n, t, nd, i⟩] := by
  induction l with
  | nil => simp
  | cons a tl ih =>
    have ha : (a.id == n) = false := by
      simp [Nat.ne_of_lt (h a (by simp))]
    simp only [List.cons_append, List.map_cons, ha, Bool.false_eq_true,
      if_false, List.cons.injEq, true_and]
    exact ih (fun y hy => h y (by simp [hy]))

/-- Full characterization of a successful landing provisioning run: with a
resolvable user and a fresh id counter, the run answers 200 and the
database gains exactly the five provisioned rows, with the mutated content
written over the data column of the new DocumentData row only. -/
theorem provisionLanding_ok (env : Env) (session : CheckoutSession)
    (db : Db) (user : UserRow)
    (huser : db.users.find? (fun u =>
      clientRefMatches session.client_reference_id u.id) = some user)
    (hfresh : Db.FreshIds db) :
    provisionLanding env session db =
      ⟨Except.ok ⟨200, true, "Webhook received"⟩,
        landingFinalDb env session db user,
        landingOps session.metadata⟩ := by
  have hfind := find_dd_append db.documentDatas db.nextId
    DocumentDataType.BYTES_64 env.templateBytes64 env.templateBytes64 hfresh
  simp only [provisionLanding, huser, hfind]
  rw [map_dd_append (h := hfresh)]
  simp [landingFinalDb, landingDocumentData, landingNewData,
    landingSignatureText, landingSignatureRow, landingField, landingOps]

/-- Dispatch of a verified landing checkout completion through the full
handler: the signature header is non-empty, verification succeeded, and
the session metadata carries the landing source tag, so the handler
behaves as the provisioning run. -/
theorem handler_landing_ok (env : Env) (sigHeader : Option String)
    (session : CheckoutSession) (db : Db) (user : UserRow)
    (hsig : headerSig sigHeader ≠ "")
    (hsrc : session.metadata.bind SessionMetadata.source = some "landing")
    (huser : db.users.find? (fun u =>
      clientRefMatches session.client_reference_id u.id) = some user)
    (hfresh : Db.FreshIds db) :
    handler env sigHeader
      (Except.ok (StripeEvent.checkoutSessionCompleted session)) db =
      ⟨Except.ok ⟨200, true, "Webhook received"⟩,
        landingFinalDb env session db user,
        landingOps session.metadata⟩ := by
  simp only [handler]
  rw [if_neg hsig, if_pos hsrc]
  exact provisionLanding_ok env session db user huser hfresh

/-- The update step preserves the customer id column. -/
theorem updStep_customerId (now : Int) (subscription : StripeSubscription)
    (cid : String) (r : SubscriptionRow) :
    (updStep now subscription cid r).customerId = r.customerId := by
  unfold updStep applySubUpdate
  by_cases h : (r.customerId == cid) = true <;> simp [h]

/-- The subscription update pass does not change which rows match the
customer id key. -/
theorem any_updateMatching (now : Int) (subscription : StripeSubscription)
    (cid : String) (l : List SubscriptionRow) :
    (updateMatching now subscription cid l).any
      (fun r => r.customerId == cid) =
      l.any (fun r => r.customerId == cid) := by
  unfold updateMatching
  induction l with
  | nil => rfl
  | cons a t ih =>
    simp only [List.map_cons, List.any_cons, ih, updStep_customerId]

/-- Applying the update step twice, with possibly different clock values,
leaves every observed column as after one application. -/
theorem updStep_twice_observable (now1 now2 : Int)
    (subscription : StripeSubscription) (cid : String)
    (r : SubscriptionRow) :
    subObservable
      (updStep now2 subscription cid (updStep now1 subscription cid r)) =
      subObservable (updStep now1 subscription cid r) := by
  by_cases hm : r.customerId = cid
  · simp [updStep, applySubUpdate, subObservable, hm]
  · simp [updStep, applySubUpdate, subObservable, hm]

/-- Claim C1 (amended): a request whose stripe-signature header is
missing, non-string or empty is answered HTTP 400 with success false and
the No signature found in request message, the database unchanged and no
record read or written; a request whose header is present but whose
signature fails verification makes the handler propagate the verification
error as an uncaught throw, so the handler itself produces no HTTP 400
response, and again the database is unchanged and no record is read or
written. -/
theorem C1_theorem (env : Env) (db : Db) (sigHeader : Option String)
    (constructEvent : Except Unit StripeEvent) :
    (headerSig sigHeader = "" →
      handler env sigHeader constructEvent db =
        ⟨Except.ok ⟨400, false, "No signature found in request"⟩, db, []⟩) ∧
    (headerSig sigHeader ≠ "" →
      constructEvent = Except.error () →
      handler env sigHeader constructEvent db =
        ⟨Except.error HandlerError.signatureVerificationFailed, db, []⟩) := by
  constructor
  · intro h
    simp only [handler]
    rw [if_pos h]
  · intro h he
    subst he
    simp only [handler]
    rw [if_neg h]

/-- Witness for C1 at a concrete missing-header request: the handler
answers 400 and leaves the concrete database untouched with an empty
operation trace. -/
theorem C1_witness :
    handler envEmptyCache none (Except.ok (StripeEvent.unhandled "evt"))
      dbAlice =
      ⟨Except.ok ⟨400, false, "No signature found in request"⟩, dbAlice,
        []⟩ :=
  (C1_theorem envEmptyCache dbAlice none
    (Except.ok (StripeEvent.unhandled "evt"))).1 rfl

/-- Counterexample for C1 as stated: at a concrete request whose header is
present but whose signature is invalid, the handler does not respond HTTP
400; the verification error escapes as an uncaught throw, so the handler
produces no response at all. -/
theorem C1_counterexample :
    (handler envEmptyCache (some "sig1") (Except.error ()) dbAlice).result =
      Except.error HandlerError.signatureVerificationFailed := rfl

/-- Claim C8: a verified checkout.session.completed event whose metadata
source is not the landing tag is answered HTTP 200 with the Webhook
received message, the database is unchanged, and no Document,
DocumentData, Recipient, Field or Signature record is created. -/
theorem C8_theorem (env : Env) (db : Db) (sigHeader : Option String)
    (session : CheckoutSession)
    (hsig : headerSig sigHeader ≠ "")
    (hsrc : session.metadata.bind SessionMetadata.source ≠ some "landing") :
    handler env sigHeader
      (Except.ok (StripeEvent.checkoutSessionCompleted session)) db =
      ⟨Except.ok ⟨200, true, "Webhook received"⟩, db, []⟩ := by
  simp only [handler]
  rw [if_neg hsig, if_neg hsrc]

/-- Witness for C8 at a concrete non-landing checkout session. -/
theorem C8_witness :
    handler envEmptyCache (some "sig1")
      (Except.ok (StripeEvent.checkoutSessionCompleted sessOther)) dbAlice =
      ⟨Except.ok ⟨200, true, "Webhook received"⟩, dbAlice, []⟩ :=
  C8_theorem envEmptyCache dbAlice (some "sig1") sessOther (by decide)
    (by decide)

/-- Claim C5: on a subscription-update event for an existing customer the
update succeeds for every status string, and the updated row carries
ACTIVE for the external status active, PAST_DUE for past_due, and
INACTIVE for every other string. -/
theorem C5_theorem (now : Int) (subscription : StripeSubscription)
    (db : Db)
    (h : ∃ r ∈ db.subscriptions,
      r.customerId = normalizeCustomer subscription.customer) :
    ∃ db1, handleCustomerSubscriptionUpdated now subscription db =
        Except.ok db1 ∧
      ∀ r ∈ db1.subscriptions,
        r.customerId = normalizeCustomer subscription.customer →
          ((subscription.status = "active" →
              r.status = SubscriptionStatus.ACTIVE) ∧
           (subscription.status = "past_due" →
              r.status = SubscriptionStatus.PAST_DUE) ∧
           (subscription.status ≠ "active" →
              subscription.status ≠ "past_due" →
              r.status = SubscriptionStatus.INACTIVE)) := by
  obtain ⟨r0, hr0, hcid⟩ := h
  have hany : db.subscriptions.any
      (fun r => r.customerId == normalizeCustomer subscription.customer) =
      true := by
    rw [List.any_eq_true]
    exact ⟨r0, hr0, by simp [hcid]⟩
  refine ⟨{ db with
      subscriptions := updateMatching now subscription
        (normalizeCustomer subscription.customer) db.subscriptions },
    ?_, ?_⟩
  · simp only [handleCustomerSubscriptionUpdated]
    rw [if_pos hany]
  · intro r hr hcid2
    simp only [updateMatching, List.mem_map] at hr
    obtain ⟨a, ha, rfl⟩ := hr
    by_cases hm : a.customerId = normalizeCustomer subscription.customer
    · refine ⟨fun h1 => ?_, fun h2 => ?_, fun h1 h2 => ?_⟩
      · simp [updStep, applySubUpdate, mapSubscriptionStatus, hm, h1]
      · simp [updStep, applySubUpdate, mapSubscriptionStatus, hm, h2]
      · simp [updStep, applySubUpdate, mapSubscriptionStatus, hm, h1, h2]
    · rw [updStep_customerId] at hcid2
      exact absurd hcid2 hm

/-- Witness for C5 at a concrete canceled-status event over a concrete
stored subscription row. -/
theorem C5_witness :
    ∃ db1, handleCustomerSubscriptionUpdated 11 subCanceled dbSub =
        Except.ok db1 ∧
      ∀ r ∈ db1.subscriptions,
        r.customerId = normalizeCustomer subCanceled.customer →
          ((subCanceled.status = "active" →
              r.status = SubscriptionStatus.ACTIVE) ∧
           (subCanceled.status = "past_due" →
              r.status = SubscriptionStatus.PAST_DUE) ∧
           (subCanceled.status ≠ "active" →
              subCanceled.status ≠ "past_due" →
              r.status = SubscriptionStatus.INACTIVE)) :=
  C5_theorem 11 subCanceled dbSub ⟨rowCus1, by decide, by decide⟩

/-- Claim C7: a verified subscription-update event whose normalized
customer id matches no stored subscription row makes the request fail with
the uncaught not-found error, and no field of any existing subscription
row is altered: the database is returned unchanged. -/
theorem C7_theorem (env : Env) (db : Db) (sigHeader : Option String)
    (subscription : StripeSubscription)
    (hsig : headerSig sigHeader ≠ "")
    (hnone : ∀ r ∈ db.subscriptions,
      r.customerId ≠ normalizeCustomer subscription.customer) :
    handler env sigHeader
      (Except.ok (StripeEvent.customerSubscriptionUpdated subscription))
      db =
      ⟨Except.error HandlerError.recordNotFound, db,
        [DbOp.subscriptionUpdate]⟩ := by
  have hany : db.subscriptions.any
      (fun r => r.customerId == normalizeCustomer subscription.customer) =
      false := by
    by_contra hb
    rw [Bool.not_eq_false, List.any_eq_true] at hb
    obtain ⟨r, hr, hbeq⟩ := hb
    exact hnone r hr (by simpa using hbeq)
  simp only [handler, handleCustomerSubscriptionUpdated, hany,
    Bool.false_eq_true, if_false]
  rw [if_neg hsig]

/-- Witness for C7 at a concrete event for an unknown customer over a
concrete database holding one unrelated subscription row. -/
theorem C7_witness :
    handler envEmptyCache (some "sig1")
      (Except.ok
        (StripeEvent.customerSubscriptionUpdated subUnknownCustomer))
      dbSub =
      ⟨Except.error HandlerError.recordNotFound, dbSub,
        [DbOp.subscriptionUpdate]⟩ :=
  C7_theorem envEmptyCache dbSub (some "sig1") subUnknownCustomer
    (by decide) (by decide)

/-- Claim C6: replaying the identical subscription-update event over the
state left by a first successful application succeeds again and leaves
every subscription row unchanged in customer id, plan id, status,
cancel-at-period-end flag and period-end; only the updatedAt clock column
may move. -/
theorem C6_theorem (now1 now2 : Int) (subscription : StripeSubscription)
    (db db1 : Db)
    (h : handleCustomerSubscriptionUpdated now1 subscription db =
      Except.ok db1) :
    ∃ db2, handleCustomerSubscriptionUpdated now2 subscription db1 =
        Except.ok db2 ∧
      db2.subscriptions.map subObservable =
        db1.subscriptions.map subObservable := by
  simp only [handleCustomerSubscriptionUpdated] at h ⊢
  by_cases hany : db.subscriptions.any
      (fun r => r.customerId == normalizeCustomer subscription.customer) =
      true
  · rw [if_pos hany] at h
    injection h with h2
    subst h2
    have hany2 : (updateMatching now1 subscription
        (normalizeCustomer subscription.customer) db.subscriptions).any
        (fun r => r.customerId ==
          normalizeCustomer subscription.customer) = true := by
      rw [any_updateMatching]
      exact hany
    rw [if_pos hany2]
    refine ⟨_, rfl, ?_⟩
    simp only [updateMatching, List.map_map]
    apply List.map_congr_left
    intro r _
    exact updStep_twice_observable now1 now2 subscription
      (normalizeCustomer subscription.customer) r
  · rw [if_neg hany] at h
    cases h

/-- Witness for C6: replaying the concrete past_due update over the state
left by its first application changes no observed column. -/
theorem C6_witness :
    ∃ db2, handleCustomerSubscriptionUpdated 12 subPastDue dbSubOnce =
        Except.ok db2 ∧
      db2.subscriptions.map subObservable =
        dbSubOnce.subscriptions.map subObservable :=
  C6_theorem 11 12 subPastDue dbSub dbSubOnce rfl

/-- A database whose DocumentData table is empty has fresh ids. -/
theorem freshIds_of_nil (db : Db) (h : db.documentDatas = []) :
    Db.FreshIds db := by
  intro r hr
  rw [h] at hr
  cases hr

/-- Claim C2 (amended): on a verified landing checkout completion with a
resolvable user and no resolvable signature image, the created Signature
row has an absent image artifact and a typed-text artifact equal to the
metadata signatureText when that is present and non-empty, else to the
stored user name; the typed text is therefore non-empty exactly when that
fallback value is present and non-empty, and a user without a stored name
and without a metadata signatureText yields an absent typed text. -/
theorem C2_theorem (env : Env) (sigHeader : Option String)
    (session : CheckoutSession) (db : Db) (user : UserRow)
    (hsig : headerSig sigHeader ≠ "")
    (hsrc : session.metadata.bind SessionMetadata.source = some "landing")
    (huser : db.users.find? (fun u =>
      clientRefMatches session.client_reference_id u.id) = some user)
    (hfresh : Db.FreshIds db)
    (hnoimg : resolveSignatureDataUrl env.redis session.metadata = "") :
    (handler env sigHeader
      (Except.ok (StripeEvent.checkoutSessionCompleted session))
      db).db.signatures =
      db.signatures ++
        [⟨db.nextId + 4, db.nextId + 3, db.nextId + 2, none,
          landingSignatureText session user⟩] := by
  rw [handler_landing_ok env sigHeader session db user hsig hsrc huser
    hfresh]
  simp [landingFinalDb, landingSignatureRow, hnoimg]

/-- Witness for C2 at a concrete landing session over a user with a
non-empty stored name and no metadata signatureText: the typed artifact is
the user name and the image artifact is absent. -/
theorem C2_witness :
    (handler envEmptyCache (some "sig1")
      (Except.ok (StripeEvent.checkoutSessionCompleted sessLandingBare))
      dbAlice).db.signatures =
      dbAlice.signatures ++
        [⟨dbAlice.nextId + 4, dbAlice.nextId + 3, dbAlice.nextId + 2, none,
          landingSignatureText sessLandingBare userAlice⟩] :=
  C2_theorem envEmptyCache (some "sig1") sessLandingBare dbAlice userAlice
    (by decide) (by decide) (by decide) (freshIds_of_nil dbAlice rfl) rfl

/-- Counterexample for C2 as stated: at a concrete landing session whose
user has a null name and whose metadata carries no signatureText, the
created Signature row has a null typed-text artifact, not a non-empty
one. -/
theorem C2_counterexample :
    (handler envEmptyCache (some "sig1")
      (Except.ok (StripeEvent.checkoutSessionCompleted sessLandingBare))
      dbNoName).db.signatures = [⟨4, 3, 2, none, none⟩] := rfl

/-- Claim C3: on a verified landing checkout completion with a resolvable
user and a signature-image reference that resolves in the cache to a
non-empty value, the created Signature row carries that value as its image
artifact and an empty typed-text artifact, and the DocumentData row ends
with its data column holding the image-inserted content, which differs
from the initialData template content. -/
theorem C3_theorem (env : Env) (sigHeader : Option String)
    (session : CheckoutSession) (db : Db) (user : UserRow)
    (m : SessionMetadata) (ref v : String)
    (hsig : headerSig sigHeader ≠ "")
    (hmeta : session.metadata = some m)
    (hsrc : m.source = some "landing")
    (huser : db.users.find? (fun u =>
      clientRefMatches session.client_reference_id u.id) = some user)
    (hfresh : Db.FreshIds db)
    (href : m.signatureDataUrl = some ref)
    (hrefne : ref ≠ "")
    (hcache : env.redis ("signature:" ++ ref) = some v)
    (hvne : v ≠ "") :
    (handler env sigHeader
      (Except.ok (StripeEvent.checkoutSessionCompleted session))
      db).db.signatures =
      db.signatures ++
        [⟨db.nextId + 4, db.nextId + 3, db.nextId + 2, some v, some ""⟩] ∧
    (handler env sigHeader
      (Except.ok (StripeEvent.checkoutSessionCompleted session))
      db).db.documentDatas =
      db.documentDatas ++
        [⟨db.nextId, DocumentDataType.BYTES_64,
          insertImageInPDF env.templateBytes64 v 77 638 0,
          env.templateBytes64⟩] ∧
    insertImageInPDF env.templateBytes64 v 77 638 0 ≠
      env.templateBytes64 := by
  have hres : resolveSignatureDataUrl env.redis session.metadata = v := by
    rw [hmeta]
    simp only [resolveSignatureDataUrl, href]
    rw [if_neg hrefne, hcache]
    simp only []
    rw [if_neg hvne]
  have hsrc2 : session.metadata.bind SessionMetadata.source =
      some "landing" := by
    rw [hmeta]
    exact hsrc
  rw [handler_landing_ok env sigHeader session db user hsig hsrc2 huser
    hfresh]
  refine ⟨?_, ?_, insertImageInPDF_ne _ _ _ _ _⟩
  · simp [landingFinalDb, landingSignatureRow, hres, hvne]
  · simp [landingFinalDb, landingDocumentData, landingNewData, hres, hvne]

/-- Witness for C3 at a concrete landing session whose metadata reference
resolves in the concrete cache. -/
theorem C3_witness :
    (handler envWithImage (some "sig1")
      (Except.ok (StripeEvent.checkoutSessionCompleted sessLandingImg))
      dbAlice).db.signatures =
      dbAlice.signatures ++
        [⟨dbAlice.nextId + 4, dbAlice.nextId + 3, dbAlice.nextId + 2,
          some "data:image/png;base64,AAAA", some ""⟩] ∧
    (handler envWithImage (some "sig1")
      (Except.ok (StripeEvent.checkoutSessionCompleted sessLandingImg))
      dbAlice).db.documentDatas =
      dbAlice.documentDatas ++
        [⟨dbAlice.nextId, DocumentDataType.BYTES_64,
          insertImageInPDF envWithImage.templateBytes64
            "data:image/png;base64,AAAA" 77 638 0,
          envWithImage.templateBytes64⟩] ∧
    insertImageInPDF envWithImage.templateBytes64
        "data:image/png;base64,AAAA" 77 638 0 ≠
      envWithImage.templateBytes64 :=
  C3_theorem envWithImage (some "sig1") sessLandingImg dbAlice userAlice
    ⟨some "landing", none, some "ref1"⟩ "ref1" "data:image/png;base64,AAAA"
    (by decide) rfl rfl (by decide) (freshIds_of_nil dbAlice rfl) rfl
    (by decide) rfl (by decide)

/-- Claim C4 (amended): every Signature row the landing provisioning
creates has at most one populated artifact, never both; exactly one is
populated when the cache resolved an image or the computed signer text is
present and non-empty, and neither is populated when no image resolved
and the computed signer text is absent or empty. -/
theorem C4_theorem (env : Env) (sigHeader : Option String)
    (session : CheckoutSession) (db : Db) (user : UserRow)
    (hsig : headerSig sigHeader ≠ "")
    (hsrc : session.metadata.bind SessionMetadata.source = some "landing")
    (huser : db.users.find? (fun u =>
      clientRefMatches session.client_reference_id u.id) = some user)
    (hfresh : Db.FreshIds db) :
    ∃ s, (handler env sigHeader
        (Except.ok (StripeEvent.checkoutSessionCompleted session))
        db).db.signatures = db.signatures ++ [s] ∧
      (populated s.signatureImageAsBase64 &&
        populated s.typedSignature) = false ∧
      ((populated s.signatureImageAsBase64 ||
          populated s.typedSignature) = true ↔
        (resolveSignatureDataUrl env.redis session.metadata ≠ "" ∨
          ∃ t, landingSignatureText session user = some t ∧ t ≠ "")) := by
  refine ⟨landingSignatureRow env session db user, ?_, ?_, ?_⟩
  · rw [handler_landing_ok env sigHeader session db user hsig hsrc huser
      hfresh]
    simp [landingFinalDb]
  · by_cases himg : resolveSignatureDataUrl env.redis session.metadata = ""
    · simp [landingSignatureRow, populated, himg]
    · simp [landingSignatureRow, populated, himg]
  · by_cases himg : resolveSignatureDataUrl env.redis session.metadata = ""
    · simp only [landingSignatureRow, himg, if_true, Bool.false_or,
        ne_eq, not_true_eq_false, false_or, populated]
      cases hst : landingSignatureText session user with
      | none => simp [populated]
      | some t =>
        by_cases ht : t = "" <;> simp [populated, ht]
    · have hb : (resolveSignatureDataUrl env.redis session.metadata == "") =
          false := beq_eq_false_iff_ne.mpr himg
      simp [landingSignatureRow, populated, himg, hb]

/-- Witness for C4 at a concrete landing session over a user with a
non-empty stored name: the created row satisfies the at-most-one law and
the exactly-one characterization. -/
theorem C4_witness :
    ∃ s, (handler envEmptyCache (some "sig1")
        (Except.ok (StripeEvent.checkoutSessionCompleted sessLandingBare))
        dbAlice).db.signatures = dbAlice.signatures ++ [s] ∧
      (populated s.signatureImageAsBase64 &&
        populated s.typedSignature) = false ∧
      ((populated s.signatureImageAsBase64 ||
          populated s.typedSignature) = true ↔
        (resolveSignatureDataUrl envEmptyCache.redis
            sessLandingBare.metadata ≠ "" ∨
          ∃ t, landingSignatureText sessLandingBare userAlice = some t ∧
            t ≠ "")) :=
  C4_theorem envEmptyCache (some "sig1") sessLandingBare dbAlice userAlice
    (by decide) (by decide) (by decide) (freshIds_of_nil dbAlice rfl)

/-- Counterexample for C4 as stated: at a concrete landing session whose
user has an empty-string stored name and whose metadata carries no
signatureText, the created Signature row has an absent image artifact and
an empty typed-text artifact, so neither of the two is populated rather
than exactly one. -/
theorem C4_counterexample :
    (handler envEmptyCache (some "sig1")
      (Except.ok (StripeEvent.checkoutSessionCompleted sessLandingUser2))
      dbEmptyName).db.signatures = [⟨4, 3, 2, none, some ""⟩] ∧
    populated none = false ∧ populated (some "") = false :=
  ⟨rfl, rfl, rfl⟩

/-- Claim C9: in every completed landing provisioning run the new
DocumentData row was created with data and initialData both holding the
base64 template content, and at completion only the data column has been
replaced by the signed content while initialData still holds the pristine
template bytes; pre-existing DocumentData rows are untouched. -/
theorem C9_theorem (env : Env) (sigHeader : Option String)
    (session : CheckoutSession) (db : Db) (user : UserRow)
    (hsig : headerSig sigHeader ≠ "")
    (hsrc : session.metadata.bind SessionMetadata.source = some "landing")
    (huser : db.users.find? (fun u =>
      clientRefMatches session.client_reference_id u.id) = some user)
    (hfresh : Db.FreshIds db) :
    (handler env sigHeader
      (Except.ok (StripeEvent.checkoutSessionCompleted session))
      db).db.documentDatas =
      db.documentDatas ++
        [⟨db.nextId, DocumentDataType.BYTES_64,
          landingNewData env session user, env.templateBytes64⟩] ∧
    landingNewData env session user =
      (if resolveSignatureDataUrl env.redis session.metadata = "" then
        insertTextInPDF env.templateBytes64
          ((landingSignatureText session user).getD "") 77 638 0
      else
        insertImageInPDF env.templateBytes64
          (resolveSignatureDataUrl env.redis session.metadata)
          77 638 0) := by
  constructor
  · rw [handler_landing_ok env sigHeader session db user hsig hsrc huser
      hfresh]
    simp [landingFinalDb, landingDocumentData]
  · rfl

/-- Witness for C9 at a concrete landing session on the typed-text path:
the final DocumentData row holds the pristine template in initialData and
the text-inserted content in data. -/
theorem C9_witness :
    (handler envEmptyCache (some "sig1")
      (Except.ok (StripeEvent.checkoutSessionCompleted sessLandingBare))
      dbAlice).db.documentDatas =
      dbAlice.documentDatas ++
        [⟨dbAlice.nextId, DocumentDataType.BYTES_64,
          landingNewData envEmptyCache sessLandingBare userAlice,
          envEmptyCache.templateBytes64⟩] ∧
    landingNewData envEmptyCache sessLandingBare userAlice =
      (if resolveSignatureDataUrl envEmptyCache.redis
          sessLandingBare.metadata = "" then
        insertTextInPDF envEmptyCache.templateBytes64
          ((landingSignatureText sessLandingBare userAlice).getD "")
          77 638 0
      else
        insertImageInPDF envEmptyCache.templateBytes64
          (resolveSignatureDataUrl envEmptyCache.redis
            sessLandingBare.metadata) 77 638 0) :=
  C9_theorem envEmptyCache (some "sig1") sessLandingBare dbAlice userAlice
    (by decide) (by decide) (by decide) (freshIds_of_nil dbAlice rfl)

/-- Claim C10: every landing provisioning run creates its single
SIGNATURE field at page 0 and position (77, 638) with inserted false and
empty customText, and no later operation of the run updates the Field
row, so the final state still shows inserted false even though the final
document content differs from the template because the mark was drawn
into it. -/
theorem C10_theorem (env : Env) (sigHeader : Option String)
    (session : CheckoutSession) (db : Db) (user : UserRow)
    (hsig : headerSig sigHeader ≠ "")
    (hsrc : session.metadata.bind SessionMetadata.source = some "landing")
    (huser : db.users.find? (fun u =>
      clientRefMatches session.client_reference_id u.id) = some user)
    (hfresh : Db.FreshIds db) :
    (handler env sigHeader
      (Except.ok (StripeEvent.checkoutSessionCompleted session))
      db).db.fields =
      db.fields ++
        [⟨db.nextId + 3, db.nextId + 1, db.nextId + 2, FieldType.SIGNATURE,
          0, 77, 638, false, ""⟩] ∧
    (handler env sigHeader
      (Except.ok (StripeEvent.checkoutSessionCompleted session))
      db).db.documentDatas =
      db.documentDatas ++
        [⟨db.nextId, DocumentDataType.BYTES_64,
          landingNewData env session user, env.templateBytes64⟩] ∧
    landingNewData env session user ≠ env.templateBytes64 := by
  rw [handler_landing_ok env sigHeader session db user hsig hsrc huser
    hfresh]
  refine ⟨?_, ?_, landingNewData_ne_template env session user⟩
  · simp [landingFinalDb, landingField]
  · simp [landingFinalDb, landingDocumentData]

/-- Witness for C10 at a concrete landing session on the image path: the
field row ends with inserted false while the content carries the drawn
mark. -/
theorem C10_witness :
    (handler envWithImage (some "sig1")
      (Except.ok (StripeEvent.checkoutSessionCompleted sessLandingImg))
      dbAlice).db.fields =
      dbAlice.fields ++
        [⟨dbAlice.nextId + 3, dbAlice.nextId + 1, dbAlice.nextId + 2,
          FieldType.SIGNATURE, 0, 77, 638, false, ""⟩] ∧
    (handler envWithImage (some "sig1")
      (Except.ok (StripeEvent.checkoutSessionCompleted sessLandingImg))
      dbAlice).db.documentDatas =
      dbAlice.documentDatas ++
        [⟨dbAlice.nextId, DocumentDataType.BYTES_64,
          landingNewData envWithImage sessLandingImg userAlice,
          envWithImage.templateBytes64⟩] ∧
    landingNewData envWithImage sessLandingImg userAlice ≠
      envWithImage.templateBytes64 :=
  C10_theorem envWithImage (some "sig1") sessLandingImg dbAlice userAlice
    (by decide) (by decide) (by decide) (freshIds_of_nil dbAlice rfl)

end DocumensoWebhook
